import Mathlib

/-!
Shallow embedding of the projection engine of `src/components/RetirementCalculator.tsx`
(the `calculateRetirement` closure, lines 40-73, together with the constants at
lines 16-29).

The source computes with JavaScript double-precision numbers.  The claims under
scrutiny are about the exact formulas, so the embedding computes with exact
rationals (`ℚ`).  JavaScript arithmetic can produce the non-finite values `NaN`
and `Infinity` (here relevant only through division by zero and `Math.pow` of
zero to a negative exponent); the embedding models a value that has become
non-finite as `none : Option ℚ`, and every subsequent operation propagates
`none`, exactly as NaN/Infinity propagate through JavaScript arithmetic and
`Math.round`.  A result of `none` for the whole engine therefore models a
result record whose numeric fields are non-finite.
-/

/-- Line 28: `const STATE_PENSION_WEEKLY = 203.85`. -/
def STATE_PENSION_WEEKLY : ℚ := 20385 / 100

/-- Line 29: `const STATE_PENSION_ANNUAL = STATE_PENSION_WEEKLY * 52`. -/
def STATE_PENSION_ANNUAL : ℚ := STATE_PENSION_WEEKLY * 52

/-- Lines 4-14: the `CalculatorInputs` interface.  Ages are integer years per the
data model; monetary amounts and percentages are exact rationals. -/
structure CalculatorInputs where
  currentAge : ℤ
  retirementAge : ℤ
  lifeExpectancy : ℤ
  currentSavings : ℚ
  monthlyContributions : ℚ
  expectedReturn : ℚ
  inflationRate : ℚ
  desiredIncome : ℚ
  includeStatePension : Bool
deriving DecidableEq

/-- Lines 16-26: `DEFAULT_INPUTS`. -/
def DEFAULT_INPUTS : CalculatorInputs :=
  { currentAge := 30
    retirementAge := 65
    lifeExpectancy := 85
    currentSavings := 50000
    monthlyContributions := 500
    expectedReturn := 7
    inflationRate := 2
    desiredIncome := 40000
    includeStatePension := true }

/-- Lines 33-38: the shape of the `results` record set by `setResults`. -/
structure Results where
  totalSavings : ℤ
  annualIncome : ℤ
  shortfall : ℤ
  isShortfall : Bool
deriving DecidableEq

/-- JavaScript division on finite operands: a zero divisor yields a non-finite
value (`0/0 = NaN`, `x/0 = ±Infinity`), modelled as `none`. -/
def jdiv (a b : ℚ) : Option ℚ :=
  if b = 0 then none else some (a / b)

/-- `Math.pow` with a finite base and an integer exponent: `Math.pow 0 n` for
negative `n` is `Infinity`, modelled as `none`; otherwise the exact power. -/
def jpow (x : ℚ) (n : ℤ) : Option ℚ :=
  if x = 0 ∧ n < 0 then none else some (x ^ n)

/-- `Math.round`: rounds to the nearest integer, halves toward positive
infinity (`Math.round 0.5 = 1`, `Math.round (-0.5) = 0`). -/
def jround (x : ℚ) : ℤ := ⌊x + 1 / 2⌋

/-- Line 41: `const yearsToInvest = inputs.retirementAge - inputs.currentAge`. -/
def yearsToInvest (i : CalculatorInputs) : ℤ :=
  i.retirementAge - i.currentAge

/-- Line 42: `const yearsInRetirement = inputs.lifeExpectancy - inputs.retirementAge`.
Computed by the source but never read afterwards. -/
def yearsInRetirement (i : CalculatorInputs) : ℤ :=
  i.lifeExpectancy - i.retirementAge

/-- Line 45: `const realReturnRate = (1 + expectedReturn/100) / (1 + inflationRate/100) - 1`. -/
def realReturnRate (i : CalculatorInputs) : Option ℚ :=
  (jdiv (1 + i.expectedReturn / 100) (1 + i.inflationRate / 100)).map
    (fun q => q - 1)

/-- Line 48: `const futureSavings = currentSavings * Math.pow(1 + realReturnRate, yearsToInvest)`. -/
def futureSavingsQ (i : CalculatorInputs) : Option ℚ :=
  (realReturnRate i).bind fun r =>
    (jpow (1 + r) (yearsToInvest i)).map fun p => i.currentSavings * p

/-- Line 51: `const monthlyRate = realReturnRate / 12`. -/
def monthlyRateQ (i : CalculatorInputs) : Option ℚ :=
  (realReturnRate i).map fun r => r / 12

/-- Line 52: `const months = yearsToInvest * 12`. -/
def monthsZ (i : CalculatorInputs) : ℤ :=
  yearsToInvest i * 12

/-- Lines 53-54:
`const futureContributions = monthlyContributions * ((Math.pow(1 + monthlyRate, months) - 1) / monthlyRate)`.
The division by `monthlyRate` is unconditional in the source: there is no
special case for a zero monthly rate. -/
def futureContributionsQ (i : CalculatorInputs) : Option ℚ :=
  (monthlyRateQ i).bind fun mr =>
    (jpow (1 + mr) (monthsZ i)).bind fun p =>
      (jdiv (p - 1) mr).map fun q => i.monthlyContributions * q

/-- Line 56: `const totalSavings = futureSavings + futureContributions`. -/
def totalSavingsQ (i : CalculatorInputs) : Option ℚ :=
  (futureSavingsQ i).bind fun fs =>
    (futureContributionsQ i).map fun fc => fs + fc

/-- Line 59: `const withdrawalRate = 0.04`. -/
def withdrawalRate : ℚ := 4 / 100

/-- Line 60: `const annualWithdrawal = totalSavings * withdrawalRate`. -/
def annualWithdrawalQ (i : CalculatorInputs) : Option ℚ :=
  (totalSavingsQ i).map fun ts => ts * withdrawalRate

/-- Line 62: `const statePensionAmount = includeStatePension ? STATE_PENSION_ANNUAL : 0`. -/
def statePensionAmount (i : CalculatorInputs) : ℚ :=
  if i.includeStatePension then STATE_PENSION_ANNUAL else 0

/-- Line 63: `const totalAnnualIncome = annualWithdrawal + statePensionAmount`. -/
def totalAnnualIncomeQ (i : CalculatorInputs) : Option ℚ :=
  (annualWithdrawalQ i).map fun w => w + statePensionAmount i

/-- Line 65: `const shortfall = desiredIncome - totalAnnualIncome` (the signed,
unrounded gap). -/
def gapQ (i : CalculatorInputs) : Option ℚ :=
  (totalAnnualIncomeQ i).map fun inc => i.desiredIncome - inc

/-- Lines 40-73: the whole engine.  Lines 67-72 build the result record:
`totalSavings`, `annualIncome` and the magnitude of the gap are passed through
`Math.round`, and `isShortfall` is the sign test `shortfall > 0` on the
unrounded gap.  A result of `none` models a record whose numeric fields are
non-finite (NaN propagated from an unguarded division by zero). -/
def calculateRetirement (i : CalculatorInputs) : Option Results :=
  (totalSavingsQ i).bind fun ts =>
    (totalAnnualIncomeQ i).bind fun inc =>
      (gapQ i).map fun g =>
        { totalSavings := jround ts
          annualIncome := jround inc
          shortfall := jround |g|
          isShortfall := decide (0 < g) }

/-! Concrete input records used by the witness and counterexample theorems. -/

/-- The default inputs with the inflation rate raised to equal the expected
return, so that the real rate is exactly zero. -/
def c1in : CalculatorInputs := { DEFAULT_INPUTS with inflationRate := 7 }

/-- Zero savings and contributions with the real rate exactly zero. -/
def c7zero : CalculatorInputs :=
  { DEFAULT_INPUTS with currentSavings := 0, monthlyContributions := 0, inflationRate := 7 }

/-- Zero savings and contributions, nonzero real rate, pension flag set. -/
def c7on : CalculatorInputs :=
  { DEFAULT_INPUTS with currentSavings := 0, monthlyContributions := 0, retirementAge := 31 }

/-- Zero savings and contributions, nonzero real rate, pension flag unset. -/
def c7off : CalculatorInputs :=
  { DEFAULT_INPUTS with
    currentSavings := 0
    monthlyContributions := 0
    retirementAge := 31
    includeStatePension := false }

/-- A record that retires immediately, so the projected savings are just the
current savings of 100 and the income is 4. -/
def wc2 : CalculatorInputs :=
  { currentAge := 30, retirementAge := 30, lifeExpectancy := 85,
    currentSavings := 100, monthlyContributions := 0, expectedReturn := 7,
    inflationRate := 2, desiredIncome := 10, includeStatePension := false }

/-- The default scenario of the spec, as a standalone record. -/
def wc3 : CalculatorInputs :=
  { currentAge := 30, retirementAge := 65, lifeExpectancy := 85,
    currentSavings := 50000, monthlyContributions := 500, expectedReturn := 7,
    inflationRate := 2, desiredIncome := 40000, includeStatePension := true }

/-- Two years to invest at a real rate of 5/102. -/
def wc4 : CalculatorInputs :=
  { currentAge := 30, retirementAge := 32, lifeExpectancy := 85,
    currentSavings := 100, monthlyContributions := 0, expectedReturn := 7,
    inflationRate := 2, desiredIncome := 10, includeStatePension := false }

/-- A retirement age below the current age: the year span is negative. -/
def wc4neg : CalculatorInputs :=
  { currentAge := 30, retirementAge := 20, lifeExpectancy := 85,
    currentSavings := 100, monthlyContributions := 0, expectedReturn := 7,
    inflationRate := 2, desiredIncome := 10, includeStatePension := false }

/-- Total savings of exactly 100 at retirement. -/
def wc5 : CalculatorInputs :=
  { currentAge := 30, retirementAge := 30, lifeExpectancy := 85,
    currentSavings := 100, monthlyContributions := 0, expectedReturn := 7,
    inflationRate := 2, desiredIncome := 10, includeStatePension := false }

/-- Withdrawal of 4 with the state-pension flag set. -/
def wc6on : CalculatorInputs :=
  { currentAge := 30, retirementAge := 30, lifeExpectancy := 85,
    currentSavings := 100, monthlyContributions := 0, expectedReturn := 7,
    inflationRate := 2, desiredIncome := 10, includeStatePension := true }

/-- Withdrawal of 4 with the state-pension flag unset. -/
def wc6off : CalculatorInputs :=
  { currentAge := 30, retirementAge := 30, lifeExpectancy := 85,
    currentSavings := 100, monthlyContributions := 0, expectedReturn := 7,
    inflationRate := 2, desiredIncome := 10, includeStatePension := false }

/-- Total savings 201/2 = 100.5, income 201/50 = 4.02, gap 299/50 = 5.98. -/
def wc8 : CalculatorInputs :=
  { currentAge := 30, retirementAge := 30, lifeExpectancy := 85,
    currentSavings := 201/2, monthlyContributions := 0, expectedReturn := 7,
    inflationRate := 2, desiredIncome := 10, includeStatePension := false }

/-- Unrounded gap of exactly 1/4: desired income 17/4, computed income 4. -/
def wc10 : CalculatorInputs :=
  { currentAge := 30, retirementAge := 30, lifeExpectancy := 85,
    currentSavings := 100, monthlyContributions := 0, expectedReturn := 7,
    inflationRate := 2, desiredIncome := 17/4, includeStatePension := false }

/-! Helper lemmas shared by several of the theorems below. -/

/-- Inverting line 63: a finite total annual income comes from a finite total
savings amount by multiplying with the withdrawal rate and adding the pension. -/
lemma totalSavings_of_income (i : CalculatorInputs) (inc : ℚ)
    (h : totalAnnualIncomeQ i = some inc) :
    ∃ ts, totalSavingsQ i = some ts ∧ inc = ts * withdrawalRate + statePensionAmount i := by
  unfold totalAnnualIncomeQ annualWithdrawalQ at h
  cases hts : totalSavingsQ i with
  | none => rw [hts] at h; simp at h
  | some ts =>
    rw [hts] at h
    simp at h
    exact ⟨ts, rfl, h.symm⟩

/-- Unfolding line 65 once the income is known to be finite. -/
lemma gapQ_eq (i : CalculatorInputs) (inc : ℚ) (h : totalAnnualIncomeQ i = some inc) :
    gapQ i = some (i.desiredIncome - inc) := by
  unfold gapQ
  rw [h]
  rfl

/-- Unfolding lines 67-72 once all intermediate quantities are finite. -/
lemma calc_result_eq (i : CalculatorInputs) (ts inc g : ℚ)
    (hts : totalSavingsQ i = some ts) (hinc : totalAnnualIncomeQ i = some inc)
    (hg : gapQ i = some g) :
    calculateRetirement i = some
      { totalSavings := jround ts, annualIncome := jround inc,
        shortfall := jround |g|, isShortfall := decide (0 < g) } := by
  unfold calculateRetirement
  rw [hts, hinc, hg]
  rfl

/-! The claim theorems. -/

/-- C1: the spec demands a special case for a zero monthly rate so that the
future value of contributions is `monthlyContribution × months`; the source
divides unconditionally, so a zero real rate makes the annuity term `0/0`
(non-finite, modelled as `none`) and the non-finite value propagates to the
whole result.  At the failing input (expected return 7, inflation 7) the
claimed value would be `500 × 420 = 210000`, but the engine produces no finite
result at all. -/
theorem zero_monthly_rate_not_special_cased :
    realReturnRate c1in = some 0 ∧
    monthlyRateQ c1in = some 0 ∧
    c1in.monthlyContributions * ((monthsZ c1in : ℤ) : ℚ) = 210000 ∧
    futureContributionsQ c1in = none ∧
    calculateRetirement c1in = none := by
  refine ⟨?_, ?_, ?_, ?_, ?_⟩ <;>
  norm_num [calculateRetirement, gapQ, totalAnnualIncomeQ, annualWithdrawalQ, totalSavingsQ,
    futureSavingsQ, futureContributionsQ, monthlyRateQ, realReturnRate, jdiv, jpow, monthsZ,
    yearsToInvest, c1in, DEFAULT_INPUTS]

/-- C2: the gap is the desired income minus the total annual income; a positive
gap is reported as a shortfall of that magnitude with `isShortfall` true, a
nonpositive gap as a surplus of the absolute value with `isShortfall` false,
and in particular a gap of exactly zero reports no shortfall and amount 0. -/
theorem gap_sign_and_magnitude (i : CalculatorInputs) (inc : ℚ)
    (h : totalAnnualIncomeQ i = some inc) :
    gapQ i = some (i.desiredIncome - inc) ∧
    ∃ r : Results, calculateRetirement i = some r ∧
      (0 < i.desiredIncome - inc →
        r.isShortfall = true ∧ r.shortfall = jround (i.desiredIncome - inc)) ∧
      (i.desiredIncome - inc ≤ 0 →
        r.isShortfall = false ∧ r.shortfall = jround (inc - i.desiredIncome)) ∧
      (i.desiredIncome = inc → r.isShortfall = false ∧ r.shortfall = 0) := by
  obtain ⟨ts, hts, hdef⟩ := totalSavings_of_income i inc h
  have hg := gapQ_eq i inc h
  refine ⟨hg, ⟨_, calc_result_eq i ts inc _ hts h hg, ?_, ?_, ?_⟩⟩
  · intro hpos
    refine ⟨decide_eq_true hpos, ?_⟩
    show jround |i.desiredIncome - inc| = jround (i.desiredIncome - inc)
    rw [abs_of_pos hpos]
  · intro hnonpos
    refine ⟨decide_eq_false (not_lt.mpr hnonpos), ?_⟩
    show jround |i.desiredIncome - inc| = jround (inc - i.desiredIncome)
    rw [abs_of_nonpos hnonpos, neg_sub]
  · intro heq
    refine ⟨decide_eq_false (by rw [heq]; simp), ?_⟩
    show jround |i.desiredIncome - inc| = 0
    rw [heq, sub_self, abs_zero]
    norm_num [jround]

/-- C2 witness: at `wc2` the income is 4 against a desired income of 10, a
shortfall of 6. -/
theorem gap_sign_and_magnitude_witness :
    gapQ wc2 = some (wc2.desiredIncome - 4) ∧
    ∃ r : Results, calculateRetirement wc2 = some r ∧
      (0 < wc2.desiredIncome - 4 →
        r.isShortfall = true ∧ r.shortfall = jround (wc2.desiredIncome - 4)) ∧
      (wc2.desiredIncome - 4 ≤ 0 →
        r.isShortfall = false ∧ r.shortfall = jround (4 - wc2.desiredIncome)) ∧
      (wc2.desiredIncome = 4 → r.isShortfall = false ∧ r.shortfall = 0) :=
  gap_sign_and_magnitude wc2 4 (by
    norm_num [totalAnnualIncomeQ, annualWithdrawalQ, totalSavingsQ, futureSavingsQ,
      futureContributionsQ, monthlyRateQ, realReturnRate, jdiv, jpow, monthsZ,
      yearsToInvest, statePensionAmount, withdrawalRate, wc2])

/-- C3: whenever the inflation denominator is nonzero (so the division is
finite), the real annual return rate is the compounded quotient
`(1 + nominal/100) / (1 + inflation/100) - 1`, not the difference of the two
percentages. -/
theorem real_rate_compounds (i : CalculatorInputs)
    (h : 1 + i.inflationRate / 100 ≠ 0) :
    realReturnRate i =
      some ((1 + i.expectedReturn / 100) / (1 + i.inflationRate / 100) - 1) := by
  unfold realReturnRate jdiv
  rw [if_neg h]
  rfl

/-- C3 witness: at the default scenario the real rate is
`(107/100)/(102/100) - 1 = 5/102 ≈ 0.04902`. -/
theorem real_rate_compounds_witness :
    realReturnRate wc3 = some ((1 + 7 / 100) / (1 + 2 / 100) - 1) ∧
    (1 + (7 : ℚ) / 100) / (1 + 2 / 100) - 1 = 5 / 102 :=
  ⟨real_rate_compounds wc3 (by norm_num [wc3]), by norm_num⟩

/-- C4: the investment span is the retirement age minus the current age with
no clamping (a reversed pair of ages gives a negative span), and the future
value of current savings multiplies them by `(1 + realRate) ^ yearsToInvest`. -/
theorem years_span_and_future_savings :
    (∀ i : CalculatorInputs, yearsToInvest i = i.retirementAge - i.currentAge) ∧
    (∀ i : CalculatorInputs, i.retirementAge < i.currentAge → yearsToInvest i < 0) ∧
    (∀ (i : CalculatorInputs) (r p : ℚ), realReturnRate i = some r →
      jpow (1 + r) (yearsToInvest i) = some p →
      futureSavingsQ i = some (i.currentSavings * p)) := by
  refine ⟨fun i => rfl, fun i h => ?_, fun i r p h1 h2 => ?_⟩
  · unfold yearsToInvest
    omega
  · unfold futureSavingsQ
    rw [h1]
    show (jpow (1 + r) (yearsToInvest i)).map (fun p => i.currentSavings * p) = _
    rw [h2]
    rfl

/-- C4 witness: a reversed age pair gives a negative span, and two years at a
real rate of 5/102 scale the savings by `(107/102) ^ 2`. -/
theorem years_span_and_future_savings_witness :
    yearsToInvest wc4neg < 0 ∧
    futureSavingsQ wc4 = some (wc4.currentSavings * ((107 / 102 : ℚ)) ^ (2 : ℤ)) :=
  ⟨years_span_and_future_savings.2.1 wc4neg (by norm_num [wc4neg]),
   years_span_and_future_savings.2.2 wc4 (5 / 102) ((107 / 102) ^ (2 : ℤ))
     (by norm_num [realReturnRate, jdiv, wc4])
     (by norm_num [jpow, yearsToInvest, wc4])⟩

/-- C5: the annual withdrawal is the total savings times the fixed constant
`withdrawalRate = 4/100`; `yearsInRetirement` is computed (line 42) but the
payout is invariant under any change of the life expectancy, so it does not
affect the payout. -/
theorem fixed_withdrawal_rate :
    withdrawalRate = 4 / 100 ∧
    (∀ (i : CalculatorInputs) (ts : ℚ), totalSavingsQ i = some ts →
      annualWithdrawalQ i = some (ts * withdrawalRate)) ∧
    (∀ i : CalculatorInputs, yearsInRetirement i = i.lifeExpectancy - i.retirementAge) ∧
    (∀ (i : CalculatorInputs) (l : ℤ),
      annualWithdrawalQ { i with lifeExpectancy := l } = annualWithdrawalQ i) := by
  refine ⟨rfl, fun i ts h => ?_, fun i => rfl, fun i l => rfl⟩
  unfold annualWithdrawalQ
  rw [h]
  rfl

/-- C5 witness: total savings of 100 give a withdrawal of `100 × 4/100`. -/
theorem fixed_withdrawal_rate_witness :
    annualWithdrawalQ wc5 = some (100 * withdrawalRate) :=
  fixed_withdrawal_rate.2.1 wc5 100 (by
    norm_num [totalSavingsQ, futureSavingsQ, futureContributionsQ, monthlyRateQ,
      realReturnRate, jdiv, jpow, monthsZ, yearsToInvest, wc5])

/-- C6: the state pension constant is the weekly rate 203.85 times 52, which is
10600.20 annually; with the flag set the total annual income is the withdrawal
plus that constant, with the flag unset it is the withdrawal alone. -/
theorem state_pension_addition :
    STATE_PENSION_WEEKLY = 20385 / 100 ∧
    STATE_PENSION_ANNUAL = STATE_PENSION_WEEKLY * 52 ∧
    STATE_PENSION_ANNUAL = 1060020 / 100 ∧
    (∀ (i : CalculatorInputs) (w : ℚ), annualWithdrawalQ i = some w →
      (i.includeStatePension = true → totalAnnualIncomeQ i = some (w + STATE_PENSION_ANNUAL)) ∧
      (i.includeStatePension = false → totalAnnualIncomeQ i = some w)) := by
  refine ⟨rfl, rfl, by norm_num [STATE_PENSION_ANNUAL, STATE_PENSION_WEEKLY],
    fun i w h => ⟨fun hf => ?_, fun hf => ?_⟩⟩
  · unfold totalAnnualIncomeQ
    rw [h]
    simp [statePensionAmount, hf]
  · unfold totalAnnualIncomeQ
    rw [h]
    simp [statePensionAmount, hf]

/-- C6 witness: a withdrawal of 4 gives `4 + STATE_PENSION_ANNUAL` with the
flag set and 4 with the flag unset. -/
theorem state_pension_addition_witness :
    totalAnnualIncomeQ wc6on = some (4 + STATE_PENSION_ANNUAL) ∧
    totalAnnualIncomeQ wc6off = some 4 :=
  ⟨(state_pension_addition.2.2.2 wc6on 4 (by
      norm_num [annualWithdrawalQ, totalSavingsQ, futureSavingsQ, futureContributionsQ,
        monthlyRateQ, realReturnRate, jdiv, jpow, monthsZ, yearsToInvest,
        withdrawalRate, wc6on])).1 rfl,
   (state_pension_addition.2.2.2 wc6off 4 (by
      norm_num [annualWithdrawalQ, totalSavingsQ, futureSavingsQ, futureContributionsQ,
        monthlyRateQ, realReturnRate, jdiv, jpow, monthsZ, yearsToInvest,
        withdrawalRate, wc6off])).2 rfl⟩

/-- C7: with zero savings and zero contributions the claim expects total
savings 0 and income equal to the pension (flag set) or 0 (flag unset).  The
code delivers this only when the real rate is nonzero (`c7on`, `c7off`); at a
zero real rate (`c7zero`) the unguarded division makes even the
`0 × (0/0)` contribution term non-finite and the engine produces no finite
result, contradicting the claim. -/
theorem zero_savings_zero_contributions_outcome :
    calculateRetirement c7zero = none ∧
    totalSavingsQ c7on = some 0 ∧
    totalAnnualIncomeQ c7on = some STATE_PENSION_ANNUAL ∧
    calculateRetirement c7on = some
      { totalSavings := 0, annualIncome := 10600, shortfall := 29400, isShortfall := true } ∧
    totalSavingsQ c7off = some 0 ∧
    totalAnnualIncomeQ c7off = some 0 ∧
    calculateRetirement c7off = some
      { totalSavings := 0, annualIncome := 0, shortfall := 40000, isShortfall := true } := by
  refine ⟨?_, ?_, ?_, ?_, ?_, ?_, ?_⟩ <;>
  norm_num [calculateRetirement, gapQ, totalAnnualIncomeQ, annualWithdrawalQ, totalSavingsQ,
    futureSavingsQ, futureContributionsQ, monthlyRateQ, realReturnRate, jdiv, jpow, monthsZ,
    yearsToInvest, statePensionAmount, withdrawalRate, jround, STATE_PENSION_ANNUAL,
    STATE_PENSION_WEEKLY, abs_of_nonneg, c7zero, c7on, c7off, DEFAULT_INPUTS]

/-- C8: whenever the engine produces a finite result, each output currency
field is the integer produced by `jround` (so all three are integers), and
`jround` is one fixed rule: floor of the value plus one half, which rounds
every half-way value up (`1000.5` rounds to `1001`). -/
theorem outputs_rounded_half_up :
    (∀ (i : CalculatorInputs) (ts inc g : ℚ),
      totalSavingsQ i = some ts → totalAnnualIncomeQ i = some inc → gapQ i = some g →
      calculateRetirement i = some
        { totalSavings := jround ts, annualIncome := jround inc,
          shortfall := jround |g|, isShortfall := decide (0 < g) }) ∧
    (∀ x : ℚ, jround x = ⌊x + 1 / 2⌋) ∧
    (∀ n : ℤ, jround ((n : ℚ) + 1 / 2) = n + 1) ∧
    jround (1000 + 1 / 2) = 1001 := by
  refine ⟨calc_result_eq, fun x => rfl, fun n => ?_, by norm_num [jround]⟩
  unfold jround
  have h : (n : ℚ) + 1 / 2 + 1 / 2 = ((n + 1 : ℤ) : ℚ) := by push_cast; ring
  rw [h, Int.floor_intCast]

/-- C8 witness: savings of 100.5 and a gap of 5.98 pass through `jround`, and
the boundary value 1000.5 rounds up to 1001. -/
theorem outputs_rounded_half_up_witness :
    calculateRetirement wc8 = some
      { totalSavings := jround (201 / 2), annualIncome := jround (201 / 50),
        shortfall := jround |(299 / 50 : ℚ)|, isShortfall := decide ((0 : ℚ) < 299 / 50) } ∧
    jround (((1000 : ℤ) : ℚ) + 1 / 2) = 1000 + 1 :=
  ⟨outputs_rounded_half_up.1 wc8 (201 / 2) (201 / 50) (299 / 50)
    (by norm_num [totalSavingsQ, futureSavingsQ, futureContributionsQ, monthlyRateQ,
      realReturnRate, jdiv, jpow, monthsZ, yearsToInvest, wc8])
    (by norm_num [totalAnnualIncomeQ, annualWithdrawalQ, totalSavingsQ, futureSavingsQ,
      futureContributionsQ, monthlyRateQ, realReturnRate, jdiv, jpow, monthsZ,
      yearsToInvest, statePensionAmount, withdrawalRate, wc8])
    (by norm_num [gapQ, totalAnnualIncomeQ, annualWithdrawalQ, totalSavingsQ, futureSavingsQ,
      futureContributionsQ, monthlyRateQ, realReturnRate, jdiv, jpow, monthsZ,
      yearsToInvest, statePensionAmount, withdrawalRate, wc8]),
   outputs_rounded_half_up.2.2.1 1000⟩

/-- C9: the engine is a pure function of the input record: two invocations
with identical inputs yield identical output records. -/
theorem engine_deterministic (i j : CalculatorInputs) (h : i = j) :
    calculateRetirement i = calculateRetirement j := by
  rw [h]

/-- C9 witness: two invocations at the default inputs agree. -/
theorem engine_deterministic_witness :
    calculateRetirement DEFAULT_INPUTS = calculateRetirement DEFAULT_INPUTS :=
  engine_deterministic DEFAULT_INPUTS DEFAULT_INPUTS rfl

/-- C10: at `wc10` the unrounded gap is 1/4, strictly between 0 and 1/2, and
the result has `isShortfall` true (sign taken before rounding) while the
reported gap amount rounds to 0. -/
theorem shortfall_flag_unrounded_gap :
    gapQ wc10 = some (1 / 4) ∧ (0 : ℚ) < 1 / 4 ∧ (1 / 4 : ℚ) < 1 / 2 ∧
    calculateRetirement wc10 = some
      { totalSavings := 100, annualIncome := 4, shortfall := 0, isShortfall := true } := by
  refine ⟨?_, by norm_num, by norm_num, ?_⟩ <;>
  norm_num [calculateRetirement, gapQ, totalAnnualIncomeQ, annualWithdrawalQ, totalSavingsQ,
    futureSavingsQ, futureContributionsQ, monthlyRateQ, realReturnRate, jdiv, jpow, monthsZ,
    yearsToInvest, statePensionAmount, withdrawalRate, jround, abs_of_nonneg, wc10]
